import Mathlib

/-!
Verification development for the drone-survey-management-system repository.

The definitions below are a shallow embedding of the two core frontend
modules:

* `src/frontend/src/components/MissionPlanner.js` — survey-flight planning
  (`getBounds`, `calculateGridSpacing`, `isPointInPolygon`,
  `generateWaypoints`, and the flight-parameter change handlers);
* `src/frontend/src/components/MissionMonitor.js` — mission monitoring
  (`simulateRealTimeData`, `calculateETA`, `formatDuration`, progress
  updates).

JavaScript numbers are modelled by `ℚ` (the algorithms at issue use only
field operations, floor and comparisons; `Math.min()` / `Math.max()` of an
empty argument list, which yield `Infinity` / `-Infinity` in JavaScript,
are modelled by `List.minimum` / `List.maximum` into `WithTop ℚ` /
`WithBot ℚ`).  The JavaScript `for`-loops of `generateWaypoints`, whose
iteration count is data-dependent and which do not terminate for
zero-extent polygons, are modelled with an explicit fuel parameter:
a `none` result means the loop exceeded the given fuel (for the degenerate
inputs below, every fuel amount is exceeded, i.e. the loop diverges).
-/

/- Batteries marks the `Rat` arithmetic kernels `@[irreducible]`, which
blocks the elaborator-side evaluation used by `decide`/`rfl` on concrete
rational inputs; restore the default reducibility for this file. -/
attribute [local semireducible] Rat.mul Rat.add Rat.sub Rat.inv

namespace DroneSurvey

/-- A drawn map point `[lat, lng]` (the order produced by the Leaflet click
handler in MissionPlanner.js: `[e.latlng.lat, e.latlng.lng]`). -/
abbrev Point : Type := ℚ × ℚ

/-- The flight-parameter slice of the `missionData` React state of
MissionPlanner.js. -/
structure MissionData where
  flight_altitude : ℚ
  flight_speed : ℚ
  overlap_percentage : ℚ
  deriving DecidableEq, Repr

/-- Waypoint actions (`'takeoff' | 'capture' | 'land'` in the source). -/
inductive WpAction where
  | takeoff
  | capture
  | land
  deriving DecidableEq, Repr

/-- A generated waypoint, as pushed by `generateWaypoints`:
`coordinates` is the `[lng, lat, altitude]` triple of the source; the
takeoff and land waypoints have no `gimbal_pitch` field, modelled by
`none`. -/
structure Waypoint where
  sequence : ℕ
  coordinates : ℚ × ℚ × ℚ
  action : WpAction
  speed : ℚ
  heading : ℚ
  gimbal_pitch : Option ℚ
  deriving DecidableEq, Repr

/-- Binary `Math.min` on finite values. -/
def minQ (a b : ℚ) : ℚ := if a ≤ b then a else b

/-- Binary `Math.max` on finite values. -/
def maxQ (a b : ℚ) : ℚ := if b ≤ a then a else b

/-- Model of `Math.min(...l)`: `none` models the `Infinity` returned on an empty
argument list, `some q` the finite minimum. -/
def jsMin (l : List ℚ) : Option ℚ :=
  l.foldr (fun a m => some (match m with | none => a | some b => minQ a b)) none

/-- Model of `Math.max(...l)`: `none` models the `-Infinity` returned on an empty
argument list, `some q` the finite maximum. -/
def jsMax (l : List ℚ) : Option ℚ :=
  l.foldr (fun a m => some (match m with | none => a | some b => maxQ a b)) none

/-- The bounding box returned by `getBounds`.  A `none` component is the
non-finite value (`Infinity` for a min, `-Infinity` for a max) that
JavaScript produces on an empty polygon. -/
structure Bounds where
  minLat : Option ℚ
  maxLat : Option ℚ
  minLng : Option ℚ
  maxLng : Option ℚ
  deriving DecidableEq, Repr

/-- MissionPlanner.js `getBounds`: componentwise min/max of the vertex
latitudes and longitudes (`point[0]` is lat, `point[1]` is lng). -/
def getBounds (polygon : List Point) : Bounds :=
  { minLat := jsMin (polygon.map Prod.fst)
    maxLat := jsMax (polygon.map Prod.fst)
    minLng := jsMin (polygon.map Prod.snd)
    maxLng := jsMax (polygon.map Prod.snd) }

/-- MissionPlanner.js `calculateGridSpacing` on a finite bounding box
`(minLat, maxLat, minLng, maxLng)`:
`(axisExtent / 10) * ((100 - overlap) / 100)` per axis, returned as
`(latSpacing, lngSpacing)`. -/
def calculateGridSpacing (b : ℚ × ℚ × ℚ × ℚ) (overlapPercentage : ℚ) : ℚ × ℚ :=
  let areaWidth := b.2.2.2 - b.2.2.1
  let areaHeight := b.2.1 - b.1
  let overlapFactor := (100 - overlapPercentage) / 100
  ((areaHeight / 10) * overlapFactor, (areaWidth / 10) * overlapFactor)

/-- One edge of the ray-casting test of `isPointInPolygon`:
`((yi > lng) !== (yj > lng)) && (lat < (xj - xi) * (lng - yi) / (yj - yi) + xi)`. -/
def edgeTest (lat lng xi yi xj yj : ℚ) : Bool :=
  (decide (yi > lng) != decide (yj > lng)) &&
    decide (lat < (xj - xi) * (lng - yi) / (yj - yi) + xi)

/-- MissionPlanner.js `isPointInPolygon`: ray casting over consecutive
vertex pairs `(polygon[i], polygon[j])` with `j` the predecessor of `i`
(wrapping, so the first pair is `(polygon[0], polygon[last])`).  An empty
polygon yields `false` (the loop body never runs). -/
def isPointInPolygon (point : Point) (polygon : List Point) : Bool :=
  match polygon.getLast? with
  | none => false
  | some plast =>
    (polygon.zip (plast :: polygon)).foldl
      (fun inside pij =>
        if edgeTest point.1 point.2 pij.1.1 pij.1.2 pij.2.1 pij.2.2 then
          !inside
        else inside)
      false

/-- Guarded variant of `edgeTest` that reports (`none`) any evaluated
division with a zero divisor.  The `&&` of the source short-circuits, so
the division `(xj - xi) * (lng - yi) / (yj - yi)` is evaluated only when
the crossing guard holds. -/
def edgeTestChecked (lat lng xi yi xj yj : ℚ) : Option Bool :=
  if (decide (yi > lng) != decide (yj > lng)) then
    if yj - yi = 0 then none
    else some (decide (lat < (xj - xi) * (lng - yi) / (yj - yi) + xi))
  else some false

/-- Variant of `isPointInPolygon` with every evaluated division checked for a zero
divisor: `none` if any evaluated branch would divide by zero. -/
def isPointInPolygonChecked (point : Point) (polygon : List Point) : Option Bool :=
  match polygon.getLast? with
  | none => some false
  | some plast =>
    (polygon.zip (plast :: polygon)).foldlM
      (fun inside pij =>
        (edgeTestChecked point.1 point.2 pij.1.1 pij.1.2 pij.2.1 pij.2.2).map
          (fun t => if t then !inside else inside))
      false

/-- The ascending `for (x = start; x <= hi; x += step)` loop of
`generateWaypoints`, collecting the loop-variable values.  The fuel bounds
the number of iterations the loop is allowed; `none` means the loop would
still be running when the fuel ran out (with `step ≤ 0` and
`start ≤ hi` the JavaScript loop runs forever, so every fuel amount
is exhausted). -/
def iterUp (hi step : ℚ) : ℕ → ℚ → Option (List ℚ)
  | 0, x => if x ≤ hi then none else some []
  | n + 1, x =>
    if x ≤ hi then (iterUp hi step n (x + step)).map (fun l => x :: l)
    else some []

/-- The descending `for (x = start; x >= lo; x -= step)` loop of the
odd (right-to-left) rows of `generateWaypoints`. -/
def iterDown (lo step : ℚ) : ℕ → ℚ → Option (List ℚ)
  | 0, x => if lo ≤ x then none else some []
  | n + 1, x =>
    if lo ≤ x then (iterDown lo step n (x - step)).map (fun l => x :: l)
    else some []

/-- The even-row test of `generateWaypoints`:
`Math.floor((lat - bounds.minLat) / gridSpacing.lat) % 2 === 0`. -/
def isEvenRow (minLat sLat lat : ℚ) : Bool :=
  (((lat - minLat) / sLat).floor % 2) == 0

/-- The longitude values visited in one row of `generateWaypoints`:
west→east (`minLng` to `maxLng`) on even rows, east→west on odd rows. -/
def rowLngs (minLng maxLng sLng : ℚ) (even : Bool) (fuel : ℕ) : Option (List ℚ) :=
  if even then iterUp maxLng sLng fuel minLng
  else iterDown minLng sLng fuel maxLng

/-- All candidate grid points of `generateWaypoints`, row by row, in
visiting order, each tagged with its row's `isEvenRow` flag. -/
def buildRows (minLat minLng maxLng sLat sLng : ℚ) (fuel : ℕ) :
    List ℚ → Option (List (ℚ × ℚ × Bool))
  | [] => some []
  | lat :: rest =>
    let even := isEvenRow minLat sLat lat
    match rowLngs minLng maxLng sLng even fuel, buildRows minLat minLng maxLng sLat sLng fuel rest with
    | some lngs, some tail => some ((lngs.map (fun lng => (lat, lng, even))) ++ tail)
    | _, _ => none

/-- The candidate grid points of `generateWaypoints` for a finite
bounding box `(minLat, maxLat, minLng, maxLng)` and grid spacing
`(sLat, sLng)`. -/
def gridPoints (b : ℚ × ℚ × ℚ × ℚ) (s : ℚ × ℚ) (fuel : ℕ) :
    Option (List (ℚ × ℚ × Bool)) :=
  (iterUp b.2.1 s.1 fuel b.1).bind (buildRows b.1 b.2.2.1 b.2.2.2 s.1 s.2 fuel)

/-- The body of the nested loops of `generateWaypoints`: keep the grid
points for which `isPointInPolygon` holds, pushing a `capture` waypoint
with the running sequence counter (heading 90 on even rows, 270 on odd
rows, gimbal pitch -90). -/
def buildCaptures (polygon : List Point) (md : MissionData) :
    ℕ → List (ℚ × ℚ × Bool) → List Waypoint
  | _, [] => []
  | seq, (lat, lng, even) :: rest =>
    if isPointInPolygon (lat, lng) polygon then
      { sequence := seq
        coordinates := (lng, lat, md.flight_altitude)
        action := .capture
        speed := md.flight_speed
        heading := if even then 90 else 270
        gimbal_pitch := some (-90) } :: buildCaptures polygon md (seq + 1) rest
    else buildCaptures polygon md seq rest

/-- Extraction of a finite bounding box.  `getBounds` yields non-finite
components exactly for the empty polygon, in which case the loops of
`generateWaypoints` run zero iterations (`Infinity <= -Infinity` is
false). -/
def finiteBounds (b : Bounds) : Option (ℚ × ℚ × ℚ × ℚ) :=
  match b.minLat, b.maxLat, b.minLng, b.maxLng with
  | some mnLa, some mxLa, some mnLn, some mxLn => some (mnLa, mxLa, mnLn, mxLn)
  | _, _, _, _ => none

/-- The `generatedWaypoints` array of `generateWaypoints` after the
nested sweep loops: `none` if the loops exceed the fuel (i.e. diverge in
JavaScript), otherwise the list of captured waypoints (sequence numbers
starting at 1). -/
def gridCaptures (polygon : List Point) (md : MissionData) (fuel : ℕ) :
    Option (List Waypoint) :=
  match finiteBounds (getBounds polygon) with
  | none => some []
  | some b =>
    let s := calculateGridSpacing b md.overlap_percentage
    (gridPoints b s fuel).map (buildCaptures polygon md 1)

/-- MissionPlanner.js `generateWaypoints`.  The outer `none` means the
sweep loops diverge (for every fuel); `some none` means the loops finish
but `generatedWaypoints` is empty, so `setWaypoints` is NOT called and the
stored waypoints are left unchanged; `some (some ws)` means `setWaypoints
ws` is called with the takeoff waypoint (sequence 0, at the first polygon
vertex, speed 3, heading 0), the captures, and the land waypoint (the
final sequence number, same vertex, altitude 0, speed 2, heading 0). -/
def generateWaypoints (polygon : List Point) (md : MissionData) (fuel : ℕ) :
    Option (Option (List Waypoint)) :=
  (gridCaptures polygon md fuel).map (fun caps =>
    match caps with
    | [] => none
    | c :: cs =>
      match polygon with
      | [] => none
      | p0 :: _ =>
        some ({ sequence := 0
                coordinates := (p0.2, p0.1, md.flight_altitude)
                action := .takeoff
                speed := 3
                heading := 0
                gimbal_pitch := none } ::
              (c :: cs) ++
              [{ sequence := (c :: cs).length + 1
                 coordinates := (p0.2, p0.1, 0)
                 action := .land
                 speed := 2
                 heading := 0
                 gimbal_pitch := none }]))

/-- Helper to read the waypoint-list result of `generateWaypoints`
(empty when no `setWaypoints` call happened). -/
def extractWs (r : Option (Option (List Waypoint))) : List Waypoint :=
  (r.getD none).getD []

/-- The number of waypoints stored after a `generateWaypoints` run that
started from an empty waypoint list. -/
def wpCount (r : Option (Option (List Waypoint))) : ℕ :=
  (extractWs r).length

/-- Mission lifecycle states (the `status` strings of the source:
`planned`, `in_progress`, `paused`, `completed`, `aborted`, `failed`). -/
inductive Status where
  | planned
  | in_progress
  | paused
  | completed
  | aborted
  | failed
  deriving DecidableEq, Repr, BEq

/-- The test `['completed', 'aborted', 'failed'].includes(status)` of
MissionMonitor.js `calculateETA`. -/
def isTerminal (s : Status) : Bool :=
  [Status.completed, Status.aborted, Status.failed].contains s

/-- The mission record as consumed by MissionMonitor.js.  Timestamps are
epoch milliseconds; `estimated_duration` is in minutes, `none` when the
field is absent (JavaScript `undefined`). -/
structure Mission where
  status : Status
  progress_percentage : ℚ
  distance_covered : ℚ
  started_at : Option ℚ
  completed_at : Option ℚ
  estimated_duration : Option ℚ
  deriving DecidableEq, Repr

/-- MissionMonitor.js `formatDuration` on the integer minute count it is
fed (always `Math.ceil` of a non-negative number): `!minutes` sends 0 to
`'N/A'`; otherwise `` `${hours}h ${mins}m` `` or `` `${mins}m` ``. -/
def formatDuration (minutes : ℤ) : String :=
  if minutes = 0 then "N/A"
  else
    let hours := minutes / 60
    let mins := minutes % 60
    if hours > 0 then s!"{hours}h {mins}m" else s!"{mins}m"

/-- The fallback `mission.estimated_duration || 30` of `calculateETA`: JavaScript `||`
falls back to 30 when the field is absent or 0 (falsy). -/
def estTotal (m : Mission) : ℚ :=
  match m.estimated_duration with
  | none => 30
  | some d => if d = 0 then 30 else d

/-- The elapsed time `(now - startTime) / (1000 * 60)` of `calculateETA`, in minutes. -/
def elapsedMinutes (now start : ℚ) : ℚ :=
  (now - start) / (1000 * 60)

/-- MissionMonitor.js `calculateETA`: `'N/A'` when `started_at` is unset
or the status is terminal, else
`formatDuration(Math.ceil(Math.max(0, estimatedTotal - elapsed)))`. -/
def calculateETA (now : ℚ) (m : Mission) : String :=
  match m.started_at with
  | none => "N/A"
  | some st =>
    if isTerminal m.status then "N/A"
    else formatDuration (maxQ 0 (estTotal m - elapsedMinutes now st)).ceil

/-- Errors of the lifecycle controller (spec §7). -/
inductive LifecycleError where
  | invalidTransition
  deriving DecidableEq, Repr

/-- Modelled from the spec: the backend `updateProgress(missionId,
progressDelta, distanceDelta)` endpoint invoked through
`missionsAPI.updateProgress` is not part of the files under `src/` (only
its frontend callers in MissionMonitor.js are).  Per spec §4.3 it is legal
only while the mission is `in_progress`, clamps `progress_percentage` to
[0,100], adds the distance delta, and reaching 100 triggers the
`completed` transition (setting `completed_at`) in the same atomic
step. -/
def updateProgress (now : ℚ) (m : Mission) (progressDelta distanceDelta : ℚ) :
    Except LifecycleError Mission :=
  if m.status = .in_progress then
    if minQ 100 (maxQ 0 (m.progress_percentage + progressDelta)) = 100 then
      .ok { m with
            progress_percentage := minQ 100 (maxQ 0 (m.progress_percentage + progressDelta))
            distance_covered := m.distance_covered + distanceDelta
            status := .completed
            completed_at := some now }
    else
      .ok { m with
            progress_percentage := minQ 100 (maxQ 0 (m.progress_percentage + progressDelta))
            distance_covered := m.distance_covered + distanceDelta }
  else .error .invalidTransition

/-- The `realTimeData` React state of MissionMonitor.js. -/
structure RealTimeData where
  battery : ℚ
  gpsSignal : String
  connectionStatus : String
  currentAction : String
  satellites : ℤ
  currentPosition : Option (ℚ × ℚ)
  deriving DecidableEq, Repr

/-- The GeoJSON-style `survey_area` of a mission: `coordinates` is a list
of rings whose points are `(lng, lat)` pairs (the source reads `coord[0]`
as lng and `coord[1]` as lat). -/
structure SurveyAreaGeo where
  coordinates : List (List (ℚ × ℚ))
  deriving DecidableEq, Repr

/-- The slice of `missionDetails` that `simulateRealTimeData` reads. -/
structure MissionDetails where
  survey_area : Option SurveyAreaGeo
  deriving DecidableEq, Repr

/-- The outcomes of the `Math.random()` calls of one
`simulateRealTimeData` step, each a number in [0,1). -/
structure RandomDraws where
  rPosLat : ℚ
  rPosLng : ℚ
  rBattery : ℚ
  rSat : ℚ
  rAction : ℚ
  rConn : ℚ
  deriving DecidableEq, Repr

/-- The `actions` array of `getRandomAction`. -/
def actionsList : List String :=
  ["Capturing Images", "Recording Video", "Navigating to Waypoint",
   "Hovering", "Adjusting Altitude", "Scanning Area", "Thermal Scanning",
   "Data Processing", "Position Adjustment"]

/-- The pick `actions[Math.floor(Math.random() * 9)]` (the draw lies in [0,1), so
the index is in range). -/
def getRandomAction (r : ℚ) : String :=
  List.getD actionsList ((r * 9).floor.toNat) "Capturing Images"

/-- MissionMonitor.js `simulateRealTimeData`: a new random position inside
the survey-area bounding box is taken only when the selected mission is
`in_progress` and `missionDetails.survey_area` is present; otherwise
`prev.currentPosition` is kept.  Battery, satellites, action and
connection status are updated unconditionally.  (For an `in_progress`
mission whose ring is empty, JavaScript would produce a NaN position;
that corner is modelled as keeping the previous position and is not
exercised by any claim.) -/
def simulateRealTimeData (prev : RealTimeData) (selectedMission : Option Mission)
    (missionDetails : Option MissionDetails) (rnd : RandomDraws) : RealTimeData :=
  let newPosition :=
    match selectedMission, missionDetails with
    | some sel, some det =>
      if sel.status = .in_progress then
        match det.survey_area with
        | some sa =>
          let surveyCoords := sa.coordinates.headD []
          match jsMin (surveyCoords.map Prod.snd), jsMax (surveyCoords.map Prod.snd),
              jsMin (surveyCoords.map Prod.fst), jsMax (surveyCoords.map Prod.fst) with
          | some minLat, some maxLat, some minLng, some maxLng =>
            some (minLat + rnd.rPosLat * (maxLat - minLat),
                  minLng + rnd.rPosLng * (maxLng - minLng))
          | _, _, _, _ => prev.currentPosition
        | none => prev.currentPosition
      else prev.currentPosition
    | _, _ => prev.currentPosition
  { prev with
    battery := maxQ 15 (prev.battery - rnd.rBattery * (3/2))
    satellites := 10 + (rnd.rSat * 5).floor
    currentAction := getRandomAction rnd.rAction
    connectionStatus := if rnd.rConn > 19/20 then "reconnecting" else "online"
    currentPosition := newPosition }

/-- The MissionPlanner.js React state touched by the flight-parameter
handlers. -/
structure PlannerState where
  missionData : MissionData
  surveyArea : List (List Point)
  waypoints : List Waypoint
  deriving DecidableEq, Repr

/-- The Flight Altitude `onChange` handler of MissionPlanner.js: it calls
`setMissionData({...missionData, flight_altitude: newAltitude})` and then,
if a survey area exists, `generateWaypoints(surveyArea[0])`.  That call
closes over the `missionData` binding of the current render, so the
regeneration uses the PREVIOUS parameter values (`setMissionData` does not
mutate the local `missionData`); only `setWaypoints` results from the
`some (some ws)` case replace the stored waypoints. -/
def handleAltitudeChange (st : PlannerState) (newAltitude : ℚ) (fuel : ℕ) :
    PlannerState :=
  let md' := { st.missionData with flight_altitude := newAltitude }
  match st.surveyArea with
  | [] => { st with missionData := md' }
  | poly :: _ =>
    match generateWaypoints poly st.missionData fuel with
    | some (some ws) => { st with missionData := md', waypoints := ws }
    | _ => { st with missionData := md' }

/-! ### Concrete inputs used by witnesses and counterexamples -/

/-- A right triangle drawn with three clicks. -/
def triPoly : List Point := [(0, 0), (1, 0), (0, 1)]

/-- A thin plus-shaped survey polygon: a vertical arm with longitudes in
(0.049, 0.051) spanning latitudes [0,1], and a horizontal arm with
latitudes in (0.049, 0.051) spanning longitudes [0,1].  Its bounding box
is the unit square, but its interior avoids every grid point of the
overlap-60 sweep (multiples of 1/25) while containing grid points of the
overlap-50 sweep (multiples of 1/20, e.g. (1/2, 1/20)). -/
def crossPoly : List Point :=
  [(0, 49/1000), (49/1000, 49/1000), (49/1000, 0), (51/1000, 0),
   (51/1000, 49/1000), (1, 49/1000), (1, 51/1000), (51/1000, 51/1000),
   (51/1000, 1), (49/1000, 1), (49/1000, 51/1000), (0, 51/1000)]

/-- A degenerate polygon: three collinear points with identical latitude,
so the latitude extent — and with it the latitude grid spacing — is 0. -/
def degenPoly : List Point := [(0, 0), (0, 1), (0, 2)]

/-- Flight parameters with overlap 50 (the lower bound of the legal
range). -/
def mdOv50 : MissionData := ⟨50, 5, 50⟩

/-- Flight parameters with overlap 60. -/
def mdOv60 : MissionData := ⟨50, 5, 60⟩

/-- Flight parameters with overlap 0 (coarse 11x11 sweep, used where the
claim puts no constraint on the overlap value). -/
def mdOv0 : MissionData := ⟨50, 5, 0⟩

/-- Flight parameters after changing the altitude to 80 (overlap 0). -/
def mdAlt80 : MissionData := ⟨80, 5, 0⟩

/-- The waypoint list generated for `triPoly` at overlap 0 (57 waypoints:
takeoff, 55 captures, land). -/
def c1ws : List Waypoint := extractWs (generateWaypoints triPoly mdOv0 20)

/-- An `in_progress` mission at 95% progress (spec scenario 4). -/
def mProg : Mission := ⟨.in_progress, 95, 1000, some 0, none, some 30⟩

/-- A `planned` mission that has not been started. -/
def mPlanned : Mission := ⟨.planned, 0, 0, none, none, some 30⟩

/-- A `completed` (terminal) mission. -/
def mDone : Mission := ⟨.completed, 100, 5000, some 0, some 600000, some 30⟩

/-- An `in_progress` mission started at epoch 0 with a 10-minute
estimate; at `now = 1200000` ms (20 minutes) it is overdue. -/
def mLate : Mission := ⟨.in_progress, 50, 0, some 0, none, some 10⟩

/-- A telemetry state holding battery 85 and a stale drone position. -/
def prevRtd : RealTimeData :=
  ⟨85, "Strong", "online", "Capturing Images", 12, some (10, 20)⟩

/-- Concrete random draws: the battery draw is 1/2 (a drain of 0.75). -/
def rnd7 : RandomDraws := ⟨0, 0, 1/2, 0, 0, 0⟩

/-- Planner state with the triangle survey area already defined, an empty
waypoint list and altitude 50. -/
def plannerSt0 : PlannerState := ⟨mdOv0, [triPoly], []⟩

/-! ### Geometry utility lemmas -/

theorem minQ_eq_min (a b : ℚ) : minQ a b = min a b := by
  simp [minQ, min_def]

theorem maxQ_eq_max (a b : ℚ) : maxQ a b = max a b := by
  unfold maxQ
  rcases le_or_lt b a with h | h
  · rw [if_pos h, max_eq_left h]
  · rw [if_neg (not_le.mpr h), max_eq_right h.le]

theorem jsMin_cons (a : ℚ) (l : List ℚ) :
    jsMin (a :: l) =
      some (match jsMin l with | none => a | some b => minQ a b) := rfl

theorem jsMax_cons (a : ℚ) (l : List ℚ) :
    jsMax (a :: l) =
      some (match jsMax l with | none => a | some b => maxQ a b) := rfl

theorem jsMin_spec : ∀ (l : List ℚ), l ≠ [] →
    ∃ m, jsMin l = some m ∧ m ∈ l ∧ ∀ x ∈ l, m ≤ x := by
  intro l
  induction l with
  | nil => intro h; exact absurd rfl h
  | cons a t ih =>
    intro _
    cases ht : t with
    | nil =>
      refine ⟨a, rfl, List.mem_singleton.mpr rfl, ?_⟩
      intro x hx
      rw [List.mem_singleton.mp hx]
    | cons b t2 =>
      obtain ⟨m, hm, hmem, hle⟩ := ih (by simp [ht])
      subst ht
      refine ⟨minQ a m, ?_, ?_, ?_⟩
      · rw [jsMin_cons, hm]
      · unfold minQ
        rcases le_or_lt a m with h | h
        · rw [if_pos h]; exact List.mem_cons_self _ _
        · rw [if_neg (not_le.mpr h)]; exact List.mem_cons_of_mem _ hmem
      · intro x hx
        rcases List.mem_cons.mp hx with rfl | hx2
        · rw [minQ_eq_min]; exact min_le_left _ _
        · rw [minQ_eq_min]
          exact le_trans (min_le_right _ _) (hle x hx2)

theorem jsMax_spec : ∀ (l : List ℚ), l ≠ [] →
    ∃ m, jsMax l = some m ∧ m ∈ l ∧ ∀ x ∈ l, x ≤ m := by
  intro l
  induction l with
  | nil => intro h; exact absurd rfl h
  | cons a t ih =>
    intro _
    cases ht : t with
    | nil =>
      refine ⟨a, rfl, List.mem_singleton.mpr rfl, ?_⟩
      intro x hx
      rw [List.mem_singleton.mp hx]
    | cons b t2 =>
      obtain ⟨m, hm, hmem, hle⟩ := ih (by simp [ht])
      subst ht
      refine ⟨maxQ a m, ?_, ?_, ?_⟩
      · rw [jsMax_cons, hm]
      · unfold maxQ
        rcases le_or_lt m a with h | h
        · rw [if_pos h]; exact List.mem_cons_self _ _
        · rw [if_neg (not_le.mpr h)]; exact List.mem_cons_of_mem _ hmem
      · intro x hx
        rcases List.mem_cons.mp hx with rfl | hx2
        · rw [maxQ_eq_max]; exact le_max_left _ _
        · rw [maxQ_eq_max]
          exact le_trans (hle x hx2) (le_max_right _ _)

/-! ### C9 -/

/-- C9 counterexample: the claim says `getBounds` "fails with a
GeometryError" on an empty polygon.  The source has no exception path at
all: `Math.min()` of an empty spread is `Infinity` and `Math.max()` is
`-Infinity`, so `getBounds([])` returns the non-finite bounds record
(modelled by `none` components) as an ordinary value. -/
theorem c9_counterexample :
    getBounds [] = ⟨none, none, none, none⟩ := rfl

/-- C9 (amended): `getBounds` never fails; on an empty polygon it returns
the non-finite `Math.min()` / `Math.max()` record, and on every non-empty
polygon it returns exactly the minimum and maximum latitude and longitude
over the vertices. -/
theorem c9_bounds (p : Point) (ps : List Point) :
    ∃ mnLa mxLa mnLn mxLn,
      getBounds (p :: ps) = ⟨some mnLa, some mxLa, some mnLn, some mxLn⟩ ∧
      mnLa ∈ (p :: ps).map Prod.fst ∧ (∀ x ∈ (p :: ps).map Prod.fst, mnLa ≤ x) ∧
      mxLa ∈ (p :: ps).map Prod.fst ∧ (∀ x ∈ (p :: ps).map Prod.fst, x ≤ mxLa) ∧
      mnLn ∈ (p :: ps).map Prod.snd ∧ (∀ x ∈ (p :: ps).map Prod.snd, mnLn ≤ x) ∧
      mxLn ∈ (p :: ps).map Prod.snd ∧ (∀ x ∈ (p :: ps).map Prod.snd, x ≤ mxLn) := by
  obtain ⟨a, ha, hamem, hale⟩ := jsMin_spec ((p :: ps).map Prod.fst) (by simp)
  obtain ⟨b, hb, hbmem, hble⟩ := jsMax_spec ((p :: ps).map Prod.fst) (by simp)
  obtain ⟨c, hc, hcmem, hcle⟩ := jsMin_spec ((p :: ps).map Prod.snd) (by simp)
  obtain ⟨d, hd, hdmem, hdle⟩ := jsMax_spec ((p :: ps).map Prod.snd) (by simp)
  refine ⟨a, b, c, d, ?_, hamem, hale, hbmem, hble, hcmem, hcle, hdmem, hdle⟩
  unfold getBounds
  simp only [Bounds.mk.injEq]
  exact ⟨ha, hb, hc, hd⟩

/-! ### C10 -/

theorem edgeTestChecked_eq (lat lng xi yi xj yj : ℚ) :
    edgeTestChecked lat lng xi yi xj yj = some (edgeTest lat lng xi yi xj yj) := by
  unfold edgeTestChecked edgeTest
  by_cases h1 : yi > lng <;> by_cases h2 : yj > lng
  · simp [h1, h2]
  · have hne : yj - yi ≠ 0 :=
      sub_ne_zero_of_ne (ne_of_lt (lt_of_le_of_lt (not_lt.mp h2) h1))
    simp [h1, h2, hne]
  · have hne : yj - yi ≠ 0 :=
      sub_ne_zero_of_ne (ne_of_gt (lt_of_le_of_lt (not_lt.mp h1) h2))
    simp [h1, h2, hne]
  · simp [h1, h2]

theorem foldlM_option_eq_foldl {α β : Type} (g : β → α → Option β) (f : β → α → β)
    (hg : ∀ b a, g b a = some (f b a)) :
    ∀ (l : List α) (b : β), List.foldlM g b l = some (List.foldl f b l) := by
  intro l
  induction l with
  | nil => intro b; rfl
  | cons a t ih =>
    intro b
    rw [List.foldlM_cons, hg b a, List.foldl_cons]
    exact ih (f b a)

/-- C10: the ray-casting point-in-polygon test is total and never divides
by zero.  The checked variant, which reports (`none`) any evaluated
division whose divisor `yj - yi` is zero, agrees with the source function
on every input (the crossing guard `(yi > lng) !== (yj > lng)` forces
`yi ≠ yj` whenever the division is evaluated), and the empty polygon
yields `false`. -/
theorem c10_point_in_polygon_total (pt : Point) (polygon : List Point) :
    isPointInPolygonChecked pt polygon = some (isPointInPolygon pt polygon) ∧
    isPointInPolygon pt [] = false := by
  constructor
  · unfold isPointInPolygonChecked isPointInPolygon
    cases polygon.getLast? with
    | none => rfl
    | some plast =>
      exact foldlM_option_eq_foldl _ _
        (fun b a => by rw [edgeTestChecked_eq]; rfl) _ _
  · rfl

/-! ### C2: zero grid spacing makes the sweep loop diverge -/

theorem iterUp_nonpos (hi step : ℚ) (hstep : step ≤ 0) :
    ∀ (n : ℕ) (x : ℚ), x ≤ hi → iterUp hi step n x = none := by
  intro n
  induction n with
  | zero => intro x hx; simp [iterUp, hx]
  | succ n ih =>
    intro x hx
    have hx2 : x + step ≤ hi := le_trans (by linarith) hx
    simp [iterUp, hx, ih (x + step) hx2]

/-- C2: the code loops forever instead of failing with `PlanningError`.
For the collinear polygon `[[0,0],[0,1],[0,2]]` the latitude extent is 0,
so `calculateGridSpacing` returns latitude spacing 0 and the outer
`for (lat = minLat; lat <= maxLat; lat += 0)` loop of `generateWaypoints`
never terminates: the run exceeds every fuel bound (and the source
contains no `PlanningError` or any other error path). -/
theorem c2_degenerate_spacing_diverges :
    (calculateGridSpacing (0, 0, 0, 2) 50).1 = 0 ∧
    ∀ fuel : ℕ, generateWaypoints degenPoly mdOv50 fuel = none := by
  constructor
  · rfl
  · intro fuel
    have hb : finiteBounds (getBounds degenPoly) = some (0, 0, 0, 2) := rfl
    have hup : iterUp 0 0 fuel 0 = none := iterUp_nonpos 0 0 le_rfl fuel 0 le_rfl
    have hg : gridPoints (0, 0, 0, 2) (calculateGridSpacing (0, 0, 0, 2) mdOv50.overlap_percentage) fuel = none := by
      unfold gridPoints
      have hs1 : (calculateGridSpacing (0, 0, 0, 2) mdOv50.overlap_percentage).1 = 0 := rfl
      rw [hs1, hup]
      rfl
    unfold generateWaypoints gridCaptures
    rw [hb]
    simp only [hg, Option.map_none']

/-! ### C3: empty capture set means no plan at all -/

/-- If the sweep terminates with an empty `generatedWaypoints` array, the
`if (generatedWaypoints.length > 0)` guard of `generateWaypoints` is
false, so `setWaypoints` is never called: no plan (in particular no
takeoff/land pair) is produced. -/
theorem gen_none_of_captures_nil (polygon : List Point) (md : MissionData)
    (fuel : ℕ) (h : gridCaptures polygon md fuel = some []) :
    generateWaypoints polygon md fuel = some none := by
  unfold generateWaypoints
  rw [h]
  rfl

/-- C3 (amended): for every polygon for which the sweep finds no interior
grid point, `generateWaypoints` produces no plan at all — the stored
waypoints are left unchanged — instead of the takeoff+land-only plan the
claim describes. -/
theorem c3_no_captures_no_plan (polygon : List Point) (md : MissionData)
    (fuel : ℕ) (hlen : 3 ≤ polygon.length)
    (h : gridCaptures polygon md fuel = some []) :
    generateWaypoints polygon md fuel = some none :=
  gen_none_of_captures_nil polygon md fuel h

/-! ### C4: grid spacing is antitone in the overlap percentage -/

/-- C4 (amended): for a fixed bounding box with non-negative extents,
raising the overlap percentage within [50,90] never increases the grid
spacing along either axis (the claimed waypoint-count monotonicity is
false, see the counterexample). -/
theorem c4_spacing_antitone (b : ℚ × ℚ × ℚ × ℚ) (o1 o2 : ℚ)
    (h1 : 50 ≤ o1) (h12 : o1 ≤ o2) (h2 : o2 ≤ 90)
    (hlat : b.1 ≤ b.2.1) (hlng : b.2.2.1 ≤ b.2.2.2) :
    (calculateGridSpacing b o2).1 ≤ (calculateGridSpacing b o1).1 ∧
    (calculateGridSpacing b o2).2 ≤ (calculateGridSpacing b o1).2 := by
  have hfac : (100 - o2) / 100 ≤ (100 - o1) / 100 := by linarith
  constructor
  · show ((b.2.1 - b.1) / 10) * ((100 - o2) / 100) ≤
      ((b.2.1 - b.1) / 10) * ((100 - o1) / 100)
    exact mul_le_mul_of_nonneg_left hfac (by linarith)
  · show ((b.2.2.2 - b.2.2.1) / 10) * ((100 - o2) / 100) ≤
      ((b.2.2.2 - b.2.2.1) / 10) * ((100 - o1) / 100)
    exact mul_le_mul_of_nonneg_left hfac (by linarith)

/-! ### C1: structure of a successfully generated waypoint sequence -/

theorem buildCaptures_mem (polygon : List Point) (md : MissionData) :
    ∀ (pts : List (ℚ × ℚ × Bool)) (seq : ℕ) (w : Waypoint),
      w ∈ buildCaptures polygon md seq pts →
      w.action = .capture ∧
      isPointInPolygon (w.coordinates.2.1, w.coordinates.1) polygon = true := by
  intro pts
  induction pts with
  | nil => intro seq w hw; simp [buildCaptures] at hw
  | cons hd rest ih =>
    intro seq w hw
    obtain ⟨lat, lng, even⟩ := hd
    by_cases hin : isPointInPolygon (lat, lng) polygon
    · rw [buildCaptures, if_pos hin] at hw
      rcases List.mem_cons.mp hw with rfl | hw2
      · exact ⟨rfl, hin⟩
      · exact ih (seq + 1) w hw2
    · rw [buildCaptures, if_neg hin] at hw
      exact ih seq w hw

theorem buildCaptures_seq (polygon : List Point) (md : MissionData) :
    ∀ (pts : List (ℚ × ℚ × Bool)) (seq : ℕ),
      (buildCaptures polygon md seq pts).map Waypoint.sequence =
        List.range' seq (buildCaptures polygon md seq pts).length := by
  intro pts
  induction pts with
  | nil => intro seq; rfl
  | cons hd rest ih =>
    intro seq
    obtain ⟨lat, lng, even⟩ := hd
    by_cases hin : isPointInPolygon (lat, lng) polygon
    · rw [buildCaptures, if_pos hin]
      simp only [List.map_cons, List.length_cons, ih (seq + 1), List.range'_succ]
    · rw [buildCaptures, if_neg hin]
      exact ih seq

/-- C1: whenever `generateWaypoints` produces a waypoint list, that list
contains exactly one `takeoff` waypoint and it is the head with sequence
index 0, exactly one `land` waypoint and it is the last element with the
last sequence index, every intermediate waypoint is a `capture` whose
(lat, lng) position passes `isPointInPolygon` for the survey polygon, and
the sequence indices are exactly `0, 1, ..., ws.length - 1` in order. -/
theorem c1_waypoint_structure (polygon : List Point) (md : MissionData)
    (fuel : ℕ) (ws : List Waypoint) (hlen : 3 ≤ polygon.length)
    (hgen : generateWaypoints polygon md fuel = some (some ws)) :
    (ws.filter (fun w => w.action == WpAction.takeoff)).length = 1 ∧
    (ws.filter (fun w => w.action == WpAction.land)).length = 1 ∧
    (∀ w ∈ ws, w.action = .takeoff → w.sequence = 0) ∧
    (∀ w ∈ ws, w.action = .land → w.sequence + 1 = ws.length) ∧
    (∀ w ∈ (ws.drop 1).dropLast, w.action = .capture ∧
       isPointInPolygon (w.coordinates.2.1, w.coordinates.1) polygon = true) ∧
    ws.map Waypoint.sequence = List.range ws.length := by
  -- extract the captures list and the first polygon vertex
  unfold generateWaypoints at hgen
  rw [Option.map_eq_some'] at hgen
  obtain ⟨caps, hcaps, hws⟩ := hgen
  cases hc : caps with
  | nil => rw [hc] at hws; exact absurd hws (by simp)
  | cons c cs =>
    rw [hc] at hws
    cases hp : polygon with
    | nil => rw [hp] at hws; exact absurd hws (by simp)
    | cons p0 ptail =>
      rw [hp] at hws
      simp only [Option.some.injEq] at hws
      rw [List.cons_append] at hws
      -- the captures come from `buildCaptures` with starting sequence 1
      have hbuilt : ∃ pts, caps = buildCaptures polygon md 1 pts := by
        unfold gridCaptures at hcaps
        cases hfb : finiteBounds (getBounds polygon) with
        | none =>
          rw [hfb] at hcaps
          simp only [Option.some.injEq] at hcaps
          exact absurd (hcaps.trans hc) (by simp)
        | some b =>
          rw [hfb] at hcaps
          simp only [Option.map_eq_some'] at hcaps
          obtain ⟨pts, _, hpts⟩ := hcaps
          exact ⟨pts, hpts.symm⟩
      obtain ⟨pts, hpts⟩ := hbuilt
      rw [hc] at hpts
      -- the two bookend waypoints
      set tko : Waypoint :=
        { sequence := 0
          coordinates := (p0.2, p0.1, md.flight_altitude)
          action := .takeoff
          speed := 3
          heading := 0
          gimbal_pitch := none } with htko
      set lnd : Waypoint :=
        { sequence := (c :: cs).length + 1
          coordinates := (p0.2, p0.1, 0)
          action := .land
          speed := 2
          heading := 0
          gimbal_pitch := none } with hlnd
      have hcapmem : ∀ w ∈ (c :: cs), w.action = .capture ∧
          isPointInPolygon (w.coordinates.2.1, w.coordinates.1) polygon = true := by
        intro w hw
        rw [hpts] at hw
        exact buildCaptures_mem polygon md pts 1 w hw
      have hcapseq : (c :: cs).map Waypoint.sequence =
          List.range' 1 (c :: cs).length := by
        rw [hpts]
        exact buildCaptures_seq polygon md pts 1
      have hlength : ws.length = (c :: cs).length + 2 := by
        rw [← hws]; simp
      refine ⟨?_, ?_, ?_, ?_, ?_, ?_⟩
      · -- exactly one takeoff
        rw [← hws]
        have h2 : (c :: cs).filter (fun w => w.action == WpAction.takeoff) = [] :=
          List.filter_eq_nil.mpr (fun w hw => by
            simp [(hcapmem w hw).1])
        rw [List.filter_cons, List.filter_append, h2]
        rfl
      · -- exactly one land
        rw [← hws]
        have h2 : (c :: cs).filter (fun w => w.action == WpAction.land) = [] :=
          List.filter_eq_nil.mpr (fun w hw => by
            simp [(hcapmem w hw).1])
        rw [List.filter_cons, List.filter_append, h2]
        rfl
      · -- the takeoff is at sequence index 0
        intro w hw hact
        rw [← hws] at hw
        rcases List.mem_cons.mp hw with rfl | hw2
        · rfl
        · rcases List.mem_append.mp hw2 with hw3 | hw4
          · exact absurd hact (by simp [(hcapmem w hw3).1])
          · rw [List.mem_singleton.mp hw4] at hact ⊢
            exact absurd hact (by simp [hlnd])
      · -- the land waypoint carries the final index
        intro w hw hact
        rw [← hws] at hw
        rcases List.mem_cons.mp hw with rfl | hw2
        · exact absurd hact (by simp [htko])
        · rcases List.mem_append.mp hw2 with hw3 | hw4
          · exact absurd hact (by simp [(hcapmem w hw3).1])
          · rw [List.mem_singleton.mp hw4, hlength]
      · -- intermediates are in-polygon captures
        intro w hw
        rw [← hws] at hw
        simp only [List.drop_one, List.tail_cons, List.dropLast_concat] at hw
        have hcm := hcapmem w hw
        rw [hp] at hcm
        exact hcm
      · -- sequence indices are 0, 1, ..., n
        rw [← hws]
        have hlen2 : (tko :: ((c :: cs) ++ [lnd])).length = ((c :: cs).length + 1) + 1 := by
          simp
        rw [hlen2, List.range_eq_range', List.range'_succ, List.range'_concat]
        rw [List.map_cons, List.map_append, hcapseq]
        simp [htko, hlnd, Nat.add_comm]

/-! ### C5: progress clamping and the atomic completed transition -/

/-- C5: `updateProgress` on an `in_progress` mission always succeeds with
a progress value clamped to at most 100; the result has progress 100
exactly when its status is `completed` (so no state with progress 100 and
another status is observable); any delta pushing the progress to or past
100 yields exactly 100 together with the `completed` transition and
`completed_at` in the same returned record; and once completed, any
further `updateProgress` call is rejected, so the transition fires exactly
once however large the overshoot. -/
theorem c5_update_progress_clamp (now : ℚ) (m : Mission) (pd dd : ℚ)
    (hs : m.status = .in_progress) :
    ∃ m', updateProgress now m pd dd = .ok m' ∧
      m'.progress_percentage ≤ 100 ∧
      (m'.progress_percentage = 100 ↔ m'.status = .completed) ∧
      (100 ≤ m.progress_percentage + pd →
        m'.progress_percentage = 100 ∧ m'.status = .completed ∧
        m'.completed_at = some now) ∧
      m'.distance_covered = m.distance_covered + dd ∧
      (∀ pd2 dd2, m'.status = .completed →
        updateProgress now m' pd2 dd2 = .error .invalidTransition) := by
  have hple : minQ 100 (maxQ 0 (m.progress_percentage + pd)) ≤ 100 := by
    rw [minQ_eq_min]; exact min_le_left _ _
  have hover : 100 ≤ m.progress_percentage + pd →
      minQ 100 (maxQ 0 (m.progress_percentage + pd)) = 100 := by
    intro h
    rw [minQ_eq_min, maxQ_eq_max]
    exact min_eq_left (le_max_of_le_right h)
  unfold updateProgress
  rw [if_pos hs]
  by_cases h100 : minQ 100 (maxQ 0 (m.progress_percentage + pd)) = 100
  · rw [if_pos h100]
    refine ⟨_, rfl, hple, ⟨fun _ => rfl, fun _ => h100⟩,
      fun _ => ⟨h100, rfl, rfl⟩, rfl, ?_⟩
    intro pd2 dd2 _
    rw [if_neg (show ¬(Status.completed = Status.in_progress) by simp)]
  · rw [if_neg h100]
    refine ⟨_, rfl, hple, ?_, fun h => absurd (hover h) h100, rfl, ?_⟩
    · constructor
      · intro hp; exact absurd hp h100
      · intro hc
        rw [hs] at hc
        exact absurd hc (by simp)
    · intro pd2 dd2 hc
      rw [hs] at hc
      exact absurd hc (by simp)

/-! ### C6: ETA display -/

/-- C6 (amended): `calculateETA` returns `'N/A'` when `started_at` is
unset or the status is terminal; for an active started mission it returns
`formatDuration(Math.ceil(Math.max(0, estimatedTotal - elapsed)))`, where
`estimatedTotal` falls back to 30 for an absent (or zero)
`estimated_duration`; and because `formatDuration(0) = 'N/A'`, an active
started mission whose elapsed time has reached its estimate also displays
`'N/A'` — not the zero duration the claim implies. -/
theorem c6_eta_characterization (now : ℚ) (m : Mission) :
    (m.started_at = none → calculateETA now m = "N/A") ∧
    (isTerminal m.status = true → calculateETA now m = "N/A") ∧
    (∀ st, m.started_at = some st → isTerminal m.status = false →
      estTotal m ≤ elapsedMinutes now st → calculateETA now m = "N/A") ∧
    (∀ st, m.started_at = some st → isTerminal m.status = false →
      calculateETA now m =
        formatDuration (maxQ 0 (estTotal m - elapsedMinutes now st)).ceil) := by
  refine ⟨?_, ?_, ?_, ?_⟩
  · intro h
    unfold calculateETA
    rw [h]
  · intro h
    cases hsa : m.started_at with
    | none => unfold calculateETA; rw [hsa]
    | some st =>
      unfold calculateETA
      rw [hsa]
      show (if isTerminal m.status = true then "N/A"
        else formatDuration (maxQ 0 (estTotal m - elapsedMinutes now st)).ceil) = "N/A"
      rw [if_pos h]
  · intro st hst hterm hle
    unfold calculateETA
    rw [hst]
    show (if isTerminal m.status = true then "N/A"
      else formatDuration (maxQ 0 (estTotal m - elapsedMinutes now st)).ceil) = "N/A"
    rw [if_neg (by simp [hterm])]
    have h0 : maxQ 0 (estTotal m - elapsedMinutes now st) = 0 := by
      unfold maxQ
      rw [if_pos (by linarith)]
    rw [h0]
    rfl
  · intro st hst hterm
    unfold calculateETA
    rw [hst]
    show (if isTerminal m.status = true then "N/A"
      else formatDuration (maxQ 0 (estTotal m - elapsedMinutes now st)).ceil) =
      formatDuration (maxQ 0 (estTotal m - elapsedMinutes now st)).ceil
    rw [if_neg (by simp [hterm])]

/-! ### C7: the telemetry step for non-active missions -/

/-- C7 (amended): when the selected mission is not `in_progress` (planned,
paused or terminal) — or no mission is selected — the telemetry simulation
step keeps the previous drone position unchanged (a stale value, not an
absent one), and it still updates the battery to
`Math.max(15, battery - Math.random() * 1.5)` — the battery drains on
every step regardless of mission status. -/
theorem c7_nonactive_telemetry_step (prev : RealTimeData) (sel : Option Mission)
    (det : Option MissionDetails) (rnd : RandomDraws)
    (hs : sel.map Mission.status ≠ some Status.in_progress) :
    (simulateRealTimeData prev sel det rnd).currentPosition = prev.currentPosition ∧
    (simulateRealTimeData prev sel det rnd).battery =
      maxQ 15 (prev.battery - rnd.rBattery * (3/2)) := by
  cases sel with
  | none =>
    cases det with
    | none => exact ⟨rfl, rfl⟩
    | some d => exact ⟨rfl, rfl⟩
  | some m =>
    have hm : ¬(m.status = Status.in_progress) := by
      intro hes
      exact hs (by simp [hes])
    cases det with
    | none => exact ⟨rfl, rfl⟩
    | some d =>
      constructor
      · simp only [simulateRealTimeData, if_neg hm]
      · rfl

/-! ### C8: parameter changes regenerate with stale parameters -/

set_option maxRecDepth 1000000 in
set_option maxHeartbeats 16000000 in
/-- C8: changing the flight altitude from 50 to 80 while the triangle
survey area is defined leaves the updated `missionData` holding 80, but
the regenerated waypoints still carry altitude 50 — the `generateWaypoints`
call inside the `onChange` handler closes over the pre-update
`missionData` — so the stored waypoints are NOT
`generateWaypoints(polygon, newParameters)` as the claim requires. -/
theorem c8_altitude_change_uses_stale_params :
    (handleAltitudeChange plannerSt0 80 25).missionData.flight_altitude = 80 ∧
    ((handleAltitudeChange plannerSt0 80 25).waypoints.head?.map
       (fun w => w.coordinates.2.2)) = some 50 ∧
    ((extractWs (generateWaypoints triPoly mdAlt80 25)).head?.map
       (fun w => w.coordinates.2.2)) = some 80 ∧
    (handleAltitudeChange plannerSt0 80 25).waypoints ≠
      extractWs (generateWaypoints triPoly mdAlt80 25) := by
  refine ⟨?_, ?_, ?_, ?_⟩ <;> decide

/-! ### Heavy evaluation shared by the C3 and C4 counterexamples -/

set_option maxRecDepth 1000000 in
set_option maxHeartbeats 16000000 in
/-- At overlap 60 the sweep over `crossPoly` (a 26x26 grid with spacing
1/25) finds no point inside the thin plus-shaped polygon: the
`generatedWaypoints` array comes back empty. -/
theorem crossPoly_ov60_captures : gridCaptures crossPoly mdOv60 50 = some [] := by
  decide

/-! ### Witnesses and counterexamples -/

set_option maxRecDepth 1000000 in
set_option maxHeartbeats 16000000 in
/-- C1 witness: the triangle run produces a waypoint list and the theorem
applies to it; its sequence indices are `0 .. 56`. -/
theorem c1_waypoint_structure_witness :
    3 ≤ triPoly.length ∧
    generateWaypoints triPoly mdOv0 20 = some (some c1ws) ∧
    c1ws.map Waypoint.sequence = List.range c1ws.length :=
  ⟨by decide,
   by decide,
   (c1_waypoint_structure triPoly mdOv0 20 c1ws (by decide)
     (by decide)).2.2.2.2.2⟩

/-- C3 counterexample: `crossPoly` has 12 (≥ 3) vertices, its overlap-60
sweep terminates with zero interior grid points, and `generateWaypoints`
then produces NO plan (`setWaypoints` is never called) — not the
takeoff+land two-waypoint plan the claim requires. -/
theorem c3_counterexample :
    3 ≤ crossPoly.length ∧
    gridCaptures crossPoly mdOv60 50 = some [] ∧
    generateWaypoints crossPoly mdOv60 50 = some none :=
  ⟨by decide, crossPoly_ov60_captures,
   gen_none_of_captures_nil crossPoly mdOv60 50 crossPoly_ov60_captures⟩

set_option maxRecDepth 1000000 in
set_option maxHeartbeats 16000000 in
/-- C3 witness: the amended theorem applied to the overlap-0 sweep of
`crossPoly`, which also finds no interior grid point. -/
theorem c3_no_captures_no_plan_witness :
    generateWaypoints crossPoly mdOv0 50 = some none :=
  c3_no_captures_no_plan crossPoly mdOv0 50 (by decide) (by decide)

set_option maxRecDepth 1000000 in
set_option maxHeartbeats 16000000 in
/-- C4 counterexample: for the fixed polygon `crossPoly` and fixed
altitude/speed, overlaps 50 ≤ 60 within [50,90] give 41 waypoints at
overlap 50 but 0 waypoints at overlap 60 — the finer grid misses the thin
polygon entirely, so the waypoint count strictly decreases. -/
theorem c4_counterexample :
    (50:ℚ) ≤ 50 ∧ (50:ℚ) ≤ 60 ∧ (60:ℚ) ≤ 90 ∧
    wpCount (generateWaypoints crossPoly mdOv60 50) <
      wpCount (generateWaypoints crossPoly mdOv50 50) := by
  refine ⟨le_refl _, by norm_num, by norm_num, ?_⟩
  have h60 : generateWaypoints crossPoly mdOv60 50 = some none :=
    gen_none_of_captures_nil crossPoly mdOv60 50 crossPoly_ov60_captures
  rw [h60]
  show 0 < wpCount (generateWaypoints crossPoly mdOv50 50)
  decide

/-- C4 witness: the spacing monotonicity applied to the unit bounding box
and overlaps 50 ≤ 60. -/
theorem c4_spacing_antitone_witness :
    (calculateGridSpacing (0, 1, 0, 1) 60).1 ≤ (calculateGridSpacing (0, 1, 0, 1) 50).1 ∧
    (calculateGridSpacing (0, 1, 0, 1) 60).2 ≤ (calculateGridSpacing (0, 1, 0, 1) 50).2 :=
  c4_spacing_antitone (0, 1, 0, 1) 50 60 (by norm_num) (by norm_num)
    (by norm_num) (by norm_num) (by norm_num)

/-- C5 witness: spec scenario 4 — an `in_progress` mission at progress 95
receiving `updateProgress(+10, +200)`. -/
theorem c5_update_progress_clamp_witness :
    ∃ m', updateProgress 99 mProg 10 200 = .ok m' ∧
      m'.progress_percentage ≤ 100 ∧
      (m'.progress_percentage = 100 ↔ m'.status = .completed) ∧
      (100 ≤ mProg.progress_percentage + 10 →
        m'.progress_percentage = 100 ∧ m'.status = .completed ∧
        m'.completed_at = some 99) ∧
      m'.distance_covered = mProg.distance_covered + 200 ∧
      (∀ pd2 dd2, m'.status = .completed →
        updateProgress 99 m' pd2 dd2 = .error .invalidTransition) :=
  c5_update_progress_clamp 99 mProg 10 200 rfl

/-- C6 counterexample: an `in_progress` mission with `started_at` set
whose elapsed time (20 min) exceeds its estimate (10 min): the remaining
time of the claim is `max(0, 10 - 20) = 0`, a zero duration — yet the
displayed ETA is the string `'N/A'`, which the claim reserves for planned
and terminal missions.  So the displayed ETA does not equal
`max(0, estimated_duration - elapsed)` for every active started
mission. -/
theorem c6_counterexample :
    mLate.status = Status.in_progress ∧
    mLate.started_at = some 0 ∧
    maxQ 0 (estTotal mLate - elapsedMinutes 1200000 0) = 0 ∧
    calculateETA 1200000 mLate = "N/A" := by
  refine ⟨rfl, rfl, by decide, by decide⟩

/-- C6 witness: the amended characterization applied to a planned
mission, a terminal mission, an overdue active mission and an on-schedule
active mission. -/
theorem c6_eta_characterization_witness :
    calculateETA 0 mPlanned = "N/A" ∧
    calculateETA 0 mDone = "N/A" ∧
    calculateETA 1200000 mLate = "N/A" ∧
    calculateETA 300000 mLate =
      formatDuration (maxQ 0 (estTotal mLate - elapsedMinutes 300000 0)).ceil :=
  ⟨(c6_eta_characterization 0 mPlanned).1 rfl,
   (c6_eta_characterization 0 mDone).2.1 rfl,
   (c6_eta_characterization 1200000 mLate).2.2.1 0 rfl rfl (by decide),
   (c6_eta_characterization 300000 mLate).2.2.2 0 rfl rfl⟩

/-- C7 counterexample: a telemetry step for a selected mission in the
terminal state `completed` still drains the battery (85 becomes 84.25 for
a battery draw of 1/2) and keeps the stale drone position instead of
reporting no position. -/
theorem c7_counterexample :
    mDone.status = Status.completed ∧
    (simulateRealTimeData prevRtd (some mDone) none rnd7).battery ≠ prevRtd.battery ∧
    (simulateRealTimeData prevRtd (some mDone) none rnd7).currentPosition ≠ none := by
  refine ⟨rfl, by decide, by decide⟩

/-- C7 witness: the amended theorem applied to the completed mission. -/
theorem c7_nonactive_telemetry_step_witness :
    (simulateRealTimeData prevRtd (some mDone) none rnd7).currentPosition =
      prevRtd.currentPosition ∧
    (simulateRealTimeData prevRtd (some mDone) none rnd7).battery =
      maxQ 15 (prevRtd.battery - rnd7.rBattery * (3/2)) :=
  c7_nonactive_telemetry_step prevRtd (some mDone) none rnd7 (by decide)

end DroneSurvey
